import Mathlib

/-!
Verification of the soundboard data model and its tree serializer from
Source/Soundboard.cpp, and of the mode flags of the sample edit dialog
from Source/SampleEditView.h.

The code stores `SoundSample` and `Soundboard` values in JUCE `ValueTree`
nodes.  A `ValueTree` node carries a type tag, an ordered list of
key/value properties (values are JUCE `var` variants) and an ordered list
of child nodes.  We embed the variant values, the tree, and the handful of
`ValueTree` operations the code uses, then the data classes and their
methods.
-/

/-- Embedding of the JUCE `var` variant values this code stores in tree
properties: strings, booleans, integers, and the void (undefined) variant
returned by `getProperty` for an absent key. -/
inductive VarV where
  | str (s : String)
  | boolV (b : Bool)
  | intV (n : Int)
  | void
deriving DecidableEq

/-- Leading-integer parse used by the JUCE `String -> int` conversion:
accumulates decimal digits until the first non-digit. -/
def digitsToNat : List Char → Nat → Nat
  | [], acc => acc
  | c :: cs, acc => if c.isDigit then digitsToNat cs (acc * 10 + (c.toNat - 48)) else acc

/-- Embedding of JUCE `String::getIntValue`: skip leading whitespace, read
an optional sign, then the leading run of decimal digits (0 if none). -/
def strGetIntValue (s : String) : Int :=
  match s.data.dropWhile (fun c => c = ' ' || c = '\t' || c = '\n' || c = '\r') with
  | '-' :: rest => - Int.ofNat (digitsToNat rest 0)
  | '+' :: rest => Int.ofNat (digitsToNat rest 0)
  | cs => Int.ofNat (digitsToNat cs 0)

/-- Embedding of the JUCE `var -> String` conversion: a string is itself,
a bool renders as "1"/"0", an int in decimal, void as the empty string. -/
def varToString : VarV → String
  | .str s => s
  | .boolV b => if b then "1" else "0"
  | .intV n => toString n
  | .void => ""

/-- Embedding of the JUCE `var -> bool` conversion: a bool is itself, an
int is its non-zeroness, a string is true when its integer value is
non-zero or it trims (case-insensitively) to "true" or "yes", void is
false. -/
def varToBool : VarV → Bool
  | .str s => (strGetIntValue s != 0) || s.trim.toLower == "true" || s.trim.toLower == "yes"
  | .boolV b => b
  | .intV n => n != 0
  | .void => false

/-- Embedding of the JUCE `var -> int` conversion: an int is itself, a
bool is 1/0, a string is its `getIntValue`, void is 0. -/
def varToInt : VarV → Int
  | .str s => strGetIntValue s
  | .boolV b => if b then 1 else 0
  | .intV n => n
  | .void => 0

/-- Embedding of a JUCE `ValueTree` node: a type tag, an ordered property
list, and an ordered child list. -/
inductive ValueTree where
  | node (typ : String) (props : List (String × VarV)) (children : List ValueTree)

/-- Type tag of a tree node. -/
def ValueTree.typ : ValueTree → String
  | .node t _ _ => t

/-- Property list of a tree node. -/
def ValueTree.props : ValueTree → List (String × VarV)
  | .node _ p _ => p

/-- Child list of a tree node. -/
def ValueTree.children : ValueTree → List ValueTree
  | .node _ _ c => c

/-- The `ValueTree(type)` constructor: a node with no properties and no
children. -/
def ValueTree.new (typ : String) : ValueTree :=
  .node typ [] []

/-- The invalid tree JUCE returns from a failed lookup: no type, no
properties, no children. -/
def ValueTree.invalid : ValueTree :=
  .node "" [] []

/-- Ordered lookup in a property list: the value stored under the first
occurrence of the key, or `none`. -/
def lookupProp : List (String × VarV) → String → Option VarV
  | [], _ => none
  | (k, v) :: rest, key => if k = key then some v else lookupProp rest key

/-- Update-or-append write to a property list, as `ValueTree::setProperty`
does: overwrite the value under an existing key in place, else append the
pair at the end. -/
def setProps : List (String × VarV) → String → VarV → List (String × VarV)
  | [], key, v => [(key, v)]
  | (k0, v0) :: rest, key, v =>
      if k0 = key then (key, v) :: rest else (k0, v0) :: setProps rest key v

/-- `ValueTree::setProperty` (the undo-manager argument is always
`nullptr` in this code). -/
def ValueTree.setProperty (t : ValueTree) (key : String) (v : VarV) : ValueTree :=
  .node t.typ (setProps t.props key v) t.children

/-- One-argument `ValueTree::getProperty`: the stored value, or the void
variant when the key is absent. -/
def ValueTree.getProperty (t : ValueTree) (key : String) : VarV :=
  (lookupProp t.props key).getD VarV.void

/-- Two-argument `ValueTree::getProperty`: the stored value, or the given
default when the key is absent. -/
def ValueTree.getPropertyD (t : ValueTree) (key : String) (dflt : VarV) : VarV :=
  (lookupProp t.props key).getD dflt

/-- `ValueTree::addChild`: insert the child at the given index; an index
below zero or beyond the current child count appends at the end. -/
def ValueTree.addChild (t : ValueTree) (child : ValueTree) (index : Int) : ValueTree :=
  if 0 ≤ index ∧ index.toNat ≤ t.children.length then
    .node t.typ t.props (t.children.take index.toNat ++ child :: t.children.drop index.toNat)
  else
    .node t.typ t.props (t.children ++ [child])

/-- `ValueTree::getNumChildren`. -/
def ValueTree.getNumChildren (t : ValueTree) : Nat :=
  t.children.length

/-- `ValueTree::getChildWithName`: the first child whose type tag matches,
or the invalid tree when there is none. -/
def ValueTree.getChildWithName (t : ValueTree) (key : String) : ValueTree :=
  (t.children.find? (fun c => c.typ == key)).getD ValueTree.invalid

/-- Modelled from the spec: the tree type tags and property keys declared
in Soundboard.h, which is not under src/.  The spec fixes the tags
"soundboard", "samples" and "sample" and fixed keys for the
name/file-path/loop/colour attributes. -/
def SOUNDBOARD_KEY : String := "soundboard"

/-- Modelled from the spec: the tag of the child node holding the ordered
samples (Soundboard.h is not under src/). -/
def SAMPLES_KEY : String := "samples"

/-- Modelled from the spec: the tag of one persisted sample node
(Soundboard.h is not under src/). -/
def SAMPLE_KEY : String := "sample"

/-- Modelled from the spec: the fixed key of the name attribute
(Soundboard.h is not under src/). -/
def NAME_KEY : String := "name"

/-- Modelled from the spec: the fixed key of the file-path attribute
(Soundboard.h is not under src/). -/
def FILE_PATH_KEY : String := "filePath"

/-- Modelled from the spec: the fixed key of the loop attribute
(Soundboard.h is not under src/). -/
def LOOP_KEY : String := "loop"

/-- Modelled from the spec: the fixed key of the button-colour attribute
(Soundboard.h is not under src/). -/
def BUTTON_COLOUR_KEY : String := "buttonColour"

namespace SonoPlaybackProgressButton

/-- Modelled from the spec: the default button colour constant from
SonoPlaybackProgressButton.h, which is not under src/.  The spec only
names it as "default button colour"; no claim depends on its concrete
value, so we fix an arbitrary one to keep the development executable. -/
def DEFAULT_BUTTON_COLOUR : Int := 0

end SonoPlaybackProgressButton

/-- The `SoundSample` value object: name, file path, loop flag, button
colour (an integer colour code). -/
structure SoundSample where
  name : String
  filePath : String
  loop : Bool
  buttonColour : Int
deriving DecidableEq

/-- `SoundSample::setName`. -/
def SoundSample.setName (s : SoundSample) (newName : String) : SoundSample :=
  { s with name := newName }

/-- `SoundSample::setFilePath`. -/
def SoundSample.setFilePath (s : SoundSample) (newFilePath : String) : SoundSample :=
  { s with filePath := newFilePath }

/-- `SoundSample::setLoop`. -/
def SoundSample.setLoop (s : SoundSample) (newLoop : Bool) : SoundSample :=
  { s with loop := newLoop }

/-- `SoundSample::setButtonColour`. -/
def SoundSample.setButtonColour (s : SoundSample) (newRgb : Int) : SoundSample :=
  { s with buttonColour := newRgb }

/-- `SoundSample::serialize`: a node tagged `SAMPLE_KEY` with the four
fields written under their fixed keys. -/
def SoundSample.serialize (s : SoundSample) : ValueTree :=
  ((((ValueTree.new SAMPLE_KEY).setProperty NAME_KEY (VarV.str s.name)).setProperty
      FILE_PATH_KEY (VarV.str s.filePath)).setProperty
      LOOP_KEY (VarV.boolV s.loop)).setProperty
      BUTTON_COLOUR_KEY (VarV.intV s.buttonColour)

/-- `SoundSample::deserialize`: read the four keys back, converting each
`var` to the field type; `loop` and `buttonColour` have explicit defaults,
`name` and `filePath` go through the void variant (hence the empty
string) when absent. -/
def SoundSample.deserialize (tree : ValueTree) : SoundSample :=
  { name := varToString (tree.getProperty NAME_KEY)
    filePath := varToString (tree.getProperty FILE_PATH_KEY)
    loop := varToBool (tree.getPropertyD LOOP_KEY (VarV.boolV false))
    buttonColour := varToInt (tree.getPropertyD BUTTON_COLOUR_KEY
      (VarV.intV SonoPlaybackProgressButton.DEFAULT_BUTTON_COLOUR)) }

/-- The `Soundboard` value object: a name and an ordered sequence of
samples.  The `Soundboard(String)` constructor starts with an empty
sample vector. -/
structure Soundboard where
  name : String
  samples : List SoundSample
deriving DecidableEq

/-- `Soundboard::setName`. -/
def Soundboard.setName (b : Soundboard) (newName : String) : Soundboard :=
  { b with name := newName }

/-- The samples subtree built by `Soundboard::serialize`: starting from an
empty node tagged `SAMPLES_KEY`, each sample tree is added at the running
index `i` (which always equals the current child count, so every add
appends). -/
def samplesSubtree (samples : List SoundSample) : ValueTree :=
  samples.foldl
    (fun t s => t.addChild s.serialize (Int.ofNat t.children.length))
    (ValueTree.new SAMPLES_KEY)

/-- `Soundboard::serialize`: a node tagged `SOUNDBOARD_KEY` carrying the
name and, at child index 0, the samples subtree.  JUCE `ValueTree` has
reference semantics, so the samples added to `samplesTree` after
`tree.addChild(samplesTree, 0, nullptr)` are visible through `tree`; the
pure embedding attaches the completed subtree. -/
def Soundboard.serialize (b : Soundboard) : ValueTree :=
  ((ValueTree.new SOUNDBOARD_KEY).setProperty NAME_KEY (VarV.str b.name)).addChild
    (samplesSubtree b.samples) 0

/-- `Soundboard::deserialize`: the name attribute converted to a string,
and one deserialized sample per child of the child tagged `SAMPLES_KEY`
(the indexed loop over `getChild i` for `i < getNumChildren` visits the
child list in order). -/
def Soundboard.deserialize (tree : ValueTree) : Soundboard :=
  { name := varToString (tree.getProperty NAME_KEY)
    samples := (tree.getChildWithName SAMPLES_KEY).children.map SoundSample.deserialize }

/-- `SoundSample::getName`. -/
def SoundSample.getName (s : SoundSample) : String := s.name

/-- `SoundSample::getFilePath`. -/
def SoundSample.getFilePath (s : SoundSample) : String := s.filePath

/-- `SoundSample::isLoop`. -/
def SoundSample.isLoop (s : SoundSample) : Bool := s.loop

/-- `SoundSample::getButtonColour`. -/
def SoundSample.getButtonColour (s : SoundSample) : Int := s.buttonColour

/-- `Soundboard::getName`. -/
def Soundboard.getName (b : Soundboard) : String := b.name

/-- `Soundboard::getSamples`. -/
def Soundboard.getSamples (b : Soundboard) : List SoundSample := b.samples

/-- State-passing form of the const method `SoundSample::serialize`: the
produced tree together with the receiver after the call.  The body only
reads fields, so the receiver comes back untouched. -/
def SoundSample.serializeM (s : SoundSample) : ValueTree × SoundSample :=
  (s.serialize, s)

/-- State-passing form of the const method `Soundboard::serialize`. -/
def Soundboard.serializeM (b : Soundboard) : ValueTree × Soundboard :=
  (b.serialize, b)

theorem sample_serialize_eq (s : SoundSample) :
    s.serialize = ValueTree.node SAMPLE_KEY
      [(NAME_KEY, VarV.str s.name), (FILE_PATH_KEY, VarV.str s.filePath),
       (LOOP_KEY, VarV.boolV s.loop), (BUTTON_COLOUR_KEY, VarV.intV s.buttonColour)] [] :=
  rfl

theorem roundtrip_sample (s : SoundSample) :
    SoundSample.deserialize s.serialize = s :=
  rfl

theorem samplesSubtree_fold (l : List SoundSample) (acc : List ValueTree) :
    List.foldl (fun t s => t.addChild s.serialize (Int.ofNat t.children.length))
      (ValueTree.node SAMPLES_KEY [] acc) l
      = ValueTree.node SAMPLES_KEY [] (acc ++ l.map SoundSample.serialize) := by
  induction l generalizing acc with
  | nil => simp
  | cons x xs ih =>
      have hadd : (ValueTree.node SAMPLES_KEY [] acc).addChild x.serialize
          (Int.ofNat (ValueTree.node SAMPLES_KEY [] acc).children.length)
          = ValueTree.node SAMPLES_KEY [] (acc ++ [x.serialize]) := by
        simp [ValueTree.addChild, ValueTree.children, ValueTree.typ, ValueTree.props]
      rw [List.foldl_cons, hadd, ih]
      simp

theorem samplesSubtree_eq (l : List SoundSample) :
    samplesSubtree l = ValueTree.node SAMPLES_KEY [] (l.map SoundSample.serialize) := by
  simpa [samplesSubtree, ValueTree.new] using samplesSubtree_fold l []

theorem soundboard_serialize_eq (b : Soundboard) :
    b.serialize = ValueTree.node SOUNDBOARD_KEY [(NAME_KEY, VarV.str b.name)]
      [ValueTree.node SAMPLES_KEY [] (b.samples.map SoundSample.serialize)] := by
  simp [Soundboard.serialize, samplesSubtree_eq, ValueTree.addChild, ValueTree.new,
    ValueTree.setProperty, setProps, ValueTree.typ, ValueTree.props, ValueTree.children]

theorem roundtrip_soundboard (b : Soundboard) :
    Soundboard.deserialize b.serialize = b := by
  rw [Soundboard.deserialize, soundboard_serialize_eq]
  have hcomp : SoundSample.deserialize ∘ SoundSample.serialize = id := funext roundtrip_sample
  simp [ValueTree.getChildWithName, ValueTree.getProperty, ValueTree.typ, ValueTree.props,
    ValueTree.children, List.find?, lookupProp, varToString, List.map_map, hcomp]

/-- C1: deserializing the serialization of any `SoundSample` yields a
sample whose name, filePath, loop, and buttonColour fields are identical
to those of the original. -/
theorem spec_c1_sample_roundtrip (s : SoundSample) :
    (SoundSample.deserialize s.serialize).getName = s.getName
    ∧ (SoundSample.deserialize s.serialize).getFilePath = s.getFilePath
    ∧ (SoundSample.deserialize s.serialize).isLoop = s.isLoop
    ∧ (SoundSample.deserialize s.serialize).getButtonColour = s.getButtonColour := by
  rw [roundtrip_sample]
  exact ⟨rfl, rfl, rfl, rfl⟩

/-- C2: deserializing the serialization of any `Soundboard` yields a
soundboard with the same name and a sample sequence of the same length in
the same order, each sample field-wise equal to the corresponding one. -/
theorem spec_c2_soundboard_roundtrip (b : Soundboard) :
    (Soundboard.deserialize b.serialize).getName = b.getName
    ∧ (Soundboard.deserialize b.serialize).getSamples.length = b.getSamples.length
    ∧ (Soundboard.deserialize b.serialize).getSamples = b.getSamples := by
  rw [roundtrip_soundboard]
  exact ⟨rfl, rfl, rfl⟩

/-- C3: on a sample tree node without the loop key, `deserialize` yields
loop = false; without the button-colour key, it yields buttonColour =
`SonoPlaybackProgressButton::DEFAULT_BUTTON_COLOUR`. -/
theorem spec_c3_sample_defaults (tree : ValueTree) :
    (lookupProp tree.props LOOP_KEY = none →
      (SoundSample.deserialize tree).isLoop = false)
    ∧ (lookupProp tree.props BUTTON_COLOUR_KEY = none →
      (SoundSample.deserialize tree).getButtonColour
        = SonoPlaybackProgressButton.DEFAULT_BUTTON_COLOUR) := by
  constructor
  · intro h
    simp [SoundSample.deserialize, SoundSample.isLoop, ValueTree.getPropertyD, h, varToBool]
  · intro h
    simp [SoundSample.deserialize, SoundSample.getButtonColour, ValueTree.getPropertyD, h,
      varToInt]

/-- Witness for C3 on a concrete node carrying only a name. -/
theorem spec_c3_sample_defaults_witness :
    lookupProp (ValueTree.node SAMPLE_KEY [(NAME_KEY, VarV.str "a")] []).props LOOP_KEY = none
    ∧ (SoundSample.deserialize (ValueTree.node SAMPLE_KEY [(NAME_KEY, VarV.str "a")] [])).isLoop
        = false
    ∧ (SoundSample.deserialize
        (ValueTree.node SAMPLE_KEY [(NAME_KEY, VarV.str "a")] [])).getButtonColour
        = SonoPlaybackProgressButton.DEFAULT_BUTTON_COLOUR :=
  ⟨by decide,
   (spec_c3_sample_defaults (ValueTree.node SAMPLE_KEY [(NAME_KEY, VarV.str "a")] [])).1
     (by decide),
   (spec_c3_sample_defaults (ValueTree.node SAMPLE_KEY [(NAME_KEY, VarV.str "a")] [])).2
     (by decide)⟩

/-- C4: serializing a `Soundboard` produces a node tagged "soundboard"
carrying a name attribute and exactly one child tagged "samples", whose
children are the serialized samples in sequence order; every serialized
sample is a node tagged "sample" carrying name, file-path, loop, and
colour attributes under the fixed keys. -/
theorem spec_c4_serialized_layout (b : Soundboard) (s : SoundSample) :
    b.serialize.typ = SOUNDBOARD_KEY
    ∧ lookupProp b.serialize.props NAME_KEY = some (VarV.str b.name)
    ∧ b.serialize.children
        = [ValueTree.node SAMPLES_KEY [] (b.samples.map SoundSample.serialize)]
    ∧ s.serialize.typ = SAMPLE_KEY
    ∧ lookupProp s.serialize.props NAME_KEY = some (VarV.str s.name)
    ∧ lookupProp s.serialize.props FILE_PATH_KEY = some (VarV.str s.filePath)
    ∧ lookupProp s.serialize.props LOOP_KEY = some (VarV.boolV s.loop)
    ∧ lookupProp s.serialize.props BUTTON_COLOUR_KEY = some (VarV.intV s.buttonColour) := by
  rw [soundboard_serialize_eq, sample_serialize_eq]
  refine ⟨rfl, ?_, rfl, rfl, ?_, ?_, ?_, ?_⟩ <;>
    simp [lookupProp, ValueTree.props, NAME_KEY, FILE_PATH_KEY, LOOP_KEY, BUTTON_COLOUR_KEY]

/-- C6: each `SoundSample` setter makes the corresponding getter return
the new value and leaves the other three fields unchanged, and
`Soundboard::setName` sets only the name. -/
theorem spec_c6_setters_frame (s : SoundSample) (b : Soundboard) (v w : String)
    (l : Bool) (c : Int) :
    ((s.setName v).getName = v ∧ (s.setName v).getFilePath = s.getFilePath
      ∧ (s.setName v).isLoop = s.isLoop
      ∧ (s.setName v).getButtonColour = s.getButtonColour)
    ∧ ((s.setFilePath v).getFilePath = v ∧ (s.setFilePath v).getName = s.getName
      ∧ (s.setFilePath v).isLoop = s.isLoop
      ∧ (s.setFilePath v).getButtonColour = s.getButtonColour)
    ∧ ((s.setLoop l).isLoop = l ∧ (s.setLoop l).getName = s.getName
      ∧ (s.setLoop l).getFilePath = s.getFilePath
      ∧ (s.setLoop l).getButtonColour = s.getButtonColour)
    ∧ ((s.setButtonColour c).getButtonColour = c ∧ (s.setButtonColour c).getName = s.getName
      ∧ (s.setButtonColour c).getFilePath = s.getFilePath
      ∧ (s.setButtonColour c).isLoop = s.isLoop)
    ∧ ((b.setName w).getName = w ∧ (b.setName w).getSamples = b.getSamples) := by
  exact ⟨⟨rfl, rfl, rfl, rfl⟩, ⟨rfl, rfl, rfl, rfl⟩, ⟨rfl, rfl, rfl, rfl⟩,
    ⟨rfl, rfl, rfl, rfl⟩, rfl, rfl⟩

/-- C7: the const method `serialize` leaves every field of the receiver
unchanged, for samples and soundboards alike. -/
theorem spec_c7_serialize_const (s : SoundSample) (b : Soundboard) :
    s.serializeM.1 = s.serialize
    ∧ s.serializeM.2.getName = s.getName
    ∧ s.serializeM.2.getFilePath = s.getFilePath
    ∧ s.serializeM.2.isLoop = s.isLoop
    ∧ s.serializeM.2.getButtonColour = s.getButtonColour
    ∧ b.serializeM.1 = b.serialize
    ∧ b.serializeM.2.getName = b.getName
    ∧ b.serializeM.2.getSamples = b.getSamples :=
  ⟨rfl, rfl, rfl, rfl, rfl, rfl, rfl, rfl⟩

/-- C8: on a sample tree node without the name key (respectively the
file-path key), `deserialize` yields an empty name (respectively an empty
filePath): the text fields default to the empty string, not to the
documented constants. -/
theorem spec_c8_text_defaults (tree : ValueTree) :
    (lookupProp tree.props NAME_KEY = none →
      (SoundSample.deserialize tree).getName = "")
    ∧ (lookupProp tree.props FILE_PATH_KEY = none →
      (SoundSample.deserialize tree).getFilePath = "") := by
  constructor
  · intro h
    simp [SoundSample.deserialize, SoundSample.getName, ValueTree.getProperty, h, varToString]
  · intro h
    simp [SoundSample.deserialize, SoundSample.getFilePath, ValueTree.getProperty, h,
      varToString]

/-- Witness for C8 on a concrete node carrying only a loop flag. -/
theorem spec_c8_text_defaults_witness :
    lookupProp (ValueTree.node SAMPLE_KEY [(LOOP_KEY, VarV.boolV true)] []).props NAME_KEY
      = none
    ∧ (SoundSample.deserialize (ValueTree.node SAMPLE_KEY [(LOOP_KEY, VarV.boolV true)] [])).getName
        = ""
    ∧ (SoundSample.deserialize
        (ValueTree.node SAMPLE_KEY [(LOOP_KEY, VarV.boolV true)] [])).getFilePath
        = "" :=
  ⟨by decide,
   (spec_c8_text_defaults (ValueTree.node SAMPLE_KEY [(LOOP_KEY, VarV.boolV true)] [])).1
     (by decide),
   (spec_c8_text_defaults (ValueTree.node SAMPLE_KEY [(LOOP_KEY, VarV.boolV true)] [])).2
     (by decide)⟩

/-- C9: deserializing a tree with no child tagged "samples" succeeds and
yields an empty sample sequence; the name is the string value of the name
attribute, the empty string when the attribute is absent. -/
theorem spec_c9_missing_samples_child (tree : ValueTree)
    (h : ∀ c ∈ tree.children, c.typ ≠ SAMPLES_KEY) :
    (Soundboard.deserialize tree).getSamples = []
    ∧ (Soundboard.deserialize tree).getName = varToString (tree.getProperty NAME_KEY)
    ∧ (lookupProp tree.props NAME_KEY = none → (Soundboard.deserialize tree).getName = "") := by
  cases tree with
  | node t p c =>
    simp only [ValueTree.children] at h
    have hfind : c.find? (fun x => x.typ == SAMPLES_KEY) = none := by
      rw [List.find?_eq_none]
      intro x hx
      simpa using h x hx
    refine ⟨?_, rfl, ?_⟩
    · simp [Soundboard.deserialize, Soundboard.getSamples, ValueTree.getChildWithName,
        ValueTree.children, hfind, ValueTree.invalid]
    · intro habs
      simp only [ValueTree.props] at habs
      simp [Soundboard.deserialize, Soundboard.getName, ValueTree.getProperty, ValueTree.props,
        habs, varToString]

/-- Witness for C9 on a concrete nameless node with one non-samples
child. -/
theorem spec_c9_missing_samples_child_witness :
    (Soundboard.deserialize
        (ValueTree.node SOUNDBOARD_KEY [] [ValueTree.node SAMPLE_KEY [] []])).getSamples = []
    ∧ (Soundboard.deserialize
        (ValueTree.node SOUNDBOARD_KEY [] [ValueTree.node SAMPLE_KEY [] []])).getName = "" := by
  have h := spec_c9_missing_samples_child
    (ValueTree.node SOUNDBOARD_KEY [] [ValueTree.node SAMPLE_KEY [] []])
    (by intro c hc; fin_cases hc; decide)
  exact ⟨h.1, h.2.2 (by decide)⟩

/-- The state of the sample edit dialog, from the fields of
SampleEditView.h: the mode flag, the delete flag, the initial values
shown on opening, and the current contents of the name and file-path
inputs (held by the text-editor widgets in the code). -/
structure SampleEditView where
  editModeEnabled : Bool
  deleteSample : Bool
  initialName : String
  initialFilePath : String
  nameInput : String
  filePathInput : String

/-- `SampleEditView::isEditMode` (header inline): returns
`editModeEnabled`. -/
def SampleEditView.isEditMode (v : SampleEditView) : Bool :=
  v.editModeEnabled

/-- `SampleEditView::isCreateMode` (header inline): returns
`!editModeEnabled`. -/
def SampleEditView.isCreateMode (v : SampleEditView) : Bool :=
  !v.editModeEnabled

/-- `SampleEditView::isDeleteSample` (header inline). -/
def SampleEditView.isDeleteSample (v : SampleEditView) : Bool :=
  v.deleteSample

/-- `SampleEditView::getSampleName` on this state: the entered name. -/
def SampleEditView.getSampleName (v : SampleEditView) : String :=
  v.nameInput

/-- `SampleEditView::getAbsoluteFilePath` on this state: the entered
path. -/
def SampleEditView.getAbsoluteFilePath (v : SampleEditView) : String :=
  v.filePathInput

/-- Modelled from the spec: the `SampleEditView` constructor
(SampleEditView.cpp is not under src/).  Per the header, a null sample
means create mode; per the spec, the dialog populates its fields from the
optional existing sample, reading it and never holding a mutable
reference. -/
def SampleEditView.construct : Option SoundSample → SampleEditView
  | none => ⟨false, false, "", "", "", ""⟩
  | some s => ⟨true, false, s.name, s.filePath, s.name, s.filePath⟩

/-- The world seen by the dialog: the caller-owned original sample next
to the dialog state.  Used to express that dialog operations never touch
the original. -/
structure EditDialogWorld where
  original : SoundSample
  view : SampleEditView

/-- The dialog operations after construction: editing an input field,
pressing submit, pressing delete. -/
inductive DialogOp where
  | enterName (s : String)
  | enterFilePath (s : String)
  | pressSubmit
  | pressDelete

/-- Modelled from the spec: opening the dialog on an existing sample
(SampleEditView.cpp is not under src/).  The original stays with the
caller; the dialog is constructed from a read of it. -/
def openDialog (s : SoundSample) : EditDialogWorld :=
  ⟨s, SampleEditView.construct (some s)⟩

/-- Modelled from the spec: one dialog operation (SampleEditView.cpp is
not under src/).  Editing updates only the dialog inputs; submit invokes
the completion callback on the view; delete sets the delete flag and
invokes the same callback — the callback payload (second component) is
the only channel through which results leave the dialog. -/
def dialogStep : DialogOp → EditDialogWorld → EditDialogWorld × Option SampleEditView
  | .enterName s, w => ({ w with view := { w.view with nameInput := s } }, none)
  | .enterFilePath s, w => ({ w with view := { w.view with filePathInput := s } }, none)
  | .pressSubmit, w => (w, some w.view)
  | .pressDelete, w =>
      ({ w with view := { w.view with deleteSample := true } },
       some { w.view with deleteSample := true })

/-- C5: neither construction nor any dialog operation mutates the
original sample, and submit/delete report their result exclusively as a
callback payload. -/
theorem spec_c5_dialog_never_mutates_original (s : SoundSample) (op : DialogOp)
    (w : EditDialogWorld) :
    (openDialog s).original = s
    ∧ (dialogStep op w).1.original = w.original
    ∧ (dialogStep DialogOp.pressSubmit w).2 = some w.view
    ∧ (dialogStep DialogOp.pressDelete w).2
        = some { w.view with deleteSample := true } := by
  refine ⟨rfl, ?_, rfl, rfl⟩
  cases op <;> rfl

/-- C10: in every dialog state, `isEditMode` and `isCreateMode` return
opposite boolean values, so the dialog is in exactly one of the two
modes. -/
theorem spec_c10_mode_flags_opposite (v : SampleEditView) :
    v.isEditMode = !v.isCreateMode := by
  simp [SampleEditView.isEditMode, SampleEditView.isCreateMode]
